import Mathlib

/-!
Verification of the AWS Bedrock Claude adapter (phi/llm/aws/claude.py).

The adapter validates configuration at construction time, translates an
ordered list of role-tagged messages into the JSON request body for the
Bedrock messages API, and parses complete and streamed responses back
into the internal message representation.

We shallow-embed the Python module: JSON-like values become the inductive
`JValue` (Python `None` is `JValue.null`), Python dictionaries become
association lists with insertion-order semantics (`dinsert` replaces the
value of an existing key in place and appends fresh keys, exactly as a
`dict` literal / `dict.update` does), Python truthiness becomes
`JValue.truthy`, and code that can raise (`assert`, `str.join` over
non-strings, attribute errors) returns `Except String`.
-/

set_option linter.unusedVariables false

namespace AwsClaude

/-- A JSON-like runtime value. Python `None` is `null`; numbers are
modelled as rationals (Python ints and floats; only order comparisons and
equality are performed on them in the source). -/
inductive JValue where
  | null
  | bool (b : Bool)
  | num (q : Rat)
  | str (s : String)
  | arr (xs : List JValue)
  | obj (fs : List (String × JValue))

/-- Python truthiness of a value: `None`, `False`, `0`, `""`, `[]`, `{}`
are falsy, everything else is truthy. -/
def JValue.truthy : JValue → Bool
  | .null => false
  | .bool b => b
  | .num q => q != 0
  | .str s => s != ""
  | .arr xs => !xs.isEmpty
  | .obj fs => !fs.isEmpty

/-- Lookup in a Python-dict association list (first matching key; lists
built by `dinsert` keep keys unique, mirroring `dict`). -/
def dlookup : List (String × JValue) → String → Option JValue
  | [], _ => none
  | (k, v) :: rest, key => if k = key then some v else dlookup rest key

/-- `d[key] = val` on a Python dict: replace the value of an existing key
in place, otherwise append the pair at the end (insertion order). -/
def dinsert : List (String × JValue) → String → JValue → List (String × JValue)
  | [], key, val => [(key, val)]
  | (k, v) :: rest, key, val =>
      if k = key then (k, val) :: rest else (k, v) :: dinsert rest key val

/-- `d.update(e)` on Python dicts: assign each pair of `e` in order. -/
def dupdate : List (String × JValue) → List (String × JValue) → List (String × JValue)
  | d, [] => d
  | d, (k, v) :: rest => dupdate (dinsert d k v) rest

/-- `d.get(key)` in Python: the stored value when the key is present
(possibly `None`), `None` otherwise. -/
def pyGet (d : List (String × JValue)) (key : String) : JValue :=
  (dlookup d key).getD JValue.null

/-- First-defined choice on optional values (used to state lookup after a
dict merge). -/
def ofirst : Option JValue → Option JValue → Option JValue
  | some v, _ => some v
  | none, o => o

/-- The internal conversation message (phi.llm.message.Message as used by
this adapter): a role tag and a content value. Python `None` content is
`JValue.null`; roles produced by response parsing may be any value, so
both fields are `JValue`. -/
structure Message where
  role : JValue
  content : JValue

/-- `m.role == "system"` in Python: string equality, false for any
non-string role. -/
def isSystemRole : JValue → Bool
  | .str s => s == "system"
  | _ => false

/-- `response.get("type") == "message"` in Python (absent key gives
`None`, which compares unequal to the string). -/
def isMessageType : JValue → Bool
  | .str s => s == "message"
  | _ => false

/-- The adapter configuration set by `Claude.__init__` (phi/llm/aws/claude.py).
Numeric hyperparameters are rationals (Python floats/ints are only
compared, never computed with, in the source). -/
structure Claude where
  name : String
  model : String
  max_tokens : Int
  temperature : Option Rat
  top_p : Option Rat
  top_k : Option Int
  stop_sequences : Option (List String)
  anthropic_version : String
  request_params : Option (List (String × JValue))
  client_params : Option (List (String × JValue))

/-- The fixed allow-list `ALLOWED_CLAUDE_IDS` in `Claude.check_model_id`. -/
def ALLOWED_CLAUDE_IDS : List String :=
  ["anthropic.claude-3-sonnet-20240229-v1:0",
   "anthropic.claude-3-opus-20240229-v1:0",
   "anthropic.claude-3-haiku-20240307-v1:0"]

/-- A single quote character (used when rendering the Python list in the
model-check error message). -/
def sq : String := String.singleton (Char.ofNat 39)

/-- Python `str` of a list of strings, as interpolated by the f-string in
`check_model_id`. -/
def pyStrList (l : List String) : String :=
  "[" ++ String.intercalate ", " (l.map (fun s => sq ++ s ++ sq)) ++ "]"

/-- The message of the `assert` in `Claude.check_model_id`. -/
def modelErrorMessage (model : String) : String :=
  "When using AWS Claude messaging API, you should choose from this list: "
    ++ pyStrList ALLOWED_CLAUDE_IDS ++ "\nYou passed " ++ model

/-- `Claude.check_model_id`: assert the model is in the allow-list; a
failing assert raises with a message naming the allowed set and the
offending model. -/
def check_model_id (c : Claude) : Except String Unit :=
  if c.model ∈ ALLOWED_CLAUDE_IDS then .ok () else .error (modelErrorMessage c.model)

/-- First assert of `Claude.check_hyperparameters`: `if self.temperature:`
(truthy, so `None` and `0` both skip) then assert `0 <= t <= 1`. -/
def check_temperature (c : Claude) : Except String Unit :=
  match c.temperature with
  | none => .ok ()
  | some t =>
      if t = 0 then .ok ()
      else if 0 ≤ t ∧ t ≤ 1 then .ok ()
      else .error "temperature must be between 0 and 1."

/-- Second assert of `Claude.check_hyperparameters` (top_p, range 0..1). -/
def check_top_p (c : Claude) : Except String Unit :=
  match c.top_p with
  | none => .ok ()
  | some p =>
      if p = 0 then .ok ()
      else if 0 ≤ p ∧ p ≤ 1 then .ok ()
      else .error "top_p must be between 0 and 1."

/-- Third assert of `Claude.check_hyperparameters` (top_k, range 0..500). -/
def check_top_k (c : Claude) : Except String Unit :=
  match c.top_k with
  | none => .ok ()
  | some k =>
      if k = 0 then .ok ()
      else if 0 ≤ k ∧ k ≤ 500 then .ok ()
      else .error "top_k must be between 0 and 500."

/-- `Claude.check_hyperparameters`: the three asserts in source order
(the first failure raises). -/
def check_hyperparameters (c : Claude) : Except String Unit := do
  check_temperature c
  check_top_p c
  check_top_k c

/-- The validation performed at the end of `Claude.__init__`:
`check_model_id` then `check_hyperparameters`; construction fails on the
first raised assertion. -/
def initValidate (c : Claude) : Except String Unit := do
  check_model_id c
  check_hyperparameters c

/-- Whether an `Except` result is an error (a raised Python exception). -/
def isErr {α : Type} : Except String α → Bool
  | .error _ => true
  | .ok _ => false

/-- The `_request_params` dict of `Claude.api_kwargs` just before the
final `update(self.request_params)` step: required scalars, then each
hyperparameter added only when truthy (`if self.temperature:` etc.). -/
def api_kwargs_pre (c : Claude) : List (String × JValue) :=
  let p0 : List (String × JValue) :=
    [("max_tokens", JValue.num (c.max_tokens : Rat)),
     ("anthropic_version", JValue.str c.anthropic_version)]
  let p1 := match c.temperature with
    | some t => if t = 0 then p0 else dinsert p0 "temperature" (JValue.num t)
    | none => p0
  let p2 := match c.top_p with
    | some p => if p = 0 then p1 else dinsert p1 "top_p" (JValue.num p)
    | none => p1
  let p3 := match c.top_k with
    | some k => if k = 0 then p2 else dinsert p2 "top_k" (JValue.num (k : Rat))
    | none => p2
  match c.stop_sequences with
  | some l => if l = [] then p3 else dinsert p3 "stop_sequences" (JValue.arr (l.map JValue.str))
  | none => p3

/-- `Claude.api_kwargs`: the pre-merge dict, then
`if self.request_params: _request_params.update(self.request_params)`
(skipped when the mapping is `None` or empty, both falsy). -/
def api_kwargs (c : Claude) : List (String × JValue) :=
  match c.request_params with
  | some rp => if rp.isEmpty then api_kwargs_pre c else dupdate (api_kwargs_pre c) rp
  | none => api_kwargs_pre c

/-- The dict appended for one non-system message in
`Claude.get_request_body`. -/
def msgPair (m : Message) : JValue := .obj [("role", m.role), ("content", m.content)]

/-- The `for m in messages` loop of `Claude.get_request_body`: the
accumulator carries (`system_prompt`, `messages_for_api`); a system-role
message overwrites the prompt, any other message appends its pair. -/
def scanMessages : Option JValue × List JValue → List Message → Option JValue × List JValue
  | acc, [] => acc
  | acc, m :: rest =>
      if isSystemRole m.role then scanMessages (some m.content, acc.2) rest
      else scanMessages (acc.1, acc.2 ++ [msgPair m]) rest

/-- `Claude.get_request_body`: scan the messages, build the literal dict
with the `messages` key followed by the spread of `api_kwargs` (spread
semantics = ordered dict update), then assign `system` only when the
captured prompt is truthy. -/
def get_request_body (c : Claude) (messages : List Message) : List (String × JValue) :=
  let scan := scanMessages (none, []) messages
  let request_body := dupdate [("messages", JValue.arr scan.2)] (api_kwargs c)
  match scan.1 with
  | some sp => if sp.truthy then dinsert request_body "system" sp else request_body
  | none => request_body

/-- The content of the last system-role message of a list, if any (the
value held by `system_prompt` after the scan started from `None`). -/
def lastSysContent : List Message → Option JValue
  | [] => none
  | m :: rest =>
      match lastSysContent rest with
      | some v => some v
      | none => if isSystemRole m.role then some m.content else none

/-- The `{role, content}` pairs of the non-system messages, in original
order. -/
def nonSystemPairs (msgs : List Message) : List JValue :=
  (msgs.filter (fun m => !(isSystemRole m.role))).map msgPair

/-- `c.get("text")` inside the join comprehension of
`Claude.parse_response_message`: only dict elements have `.get`; any
other element raises an AttributeError. -/
def pyGetText : JValue → Except String JValue
  | .obj fs => .ok ((dlookup fs "text").getD JValue.null)
  | _ => .error "AttributeError: object has no attribute get"

/-- The list comprehension `[c.get("text") for c in _content]`, evaluated
left to right before the join. -/
def collectTexts : List JValue → Except String (List JValue)
  | [] => .ok []
  | x :: xs => do
      let v ← pyGetText x
      let rest ← collectTexts xs
      .ok (v :: rest)

/-- `str.join` typechecks each item: a non-string (including `None`)
raises a TypeError. -/
def toStr : JValue → Except String String
  | .str s => .ok s
  | _ => .error "TypeError: sequence item: expected str instance"

/-- The join argument checked item by item. -/
def asStrings : List JValue → Except String (List String)
  | [] => .ok []
  | v :: vs => do
      let s ← toStr v
      let rest ← asStrings vs
      .ok (s :: rest)

/-- The list branch of `Claude.parse_response_message`:
`"\n".join([c.get("text") for c in _content])`. -/
def joinTexts (xs : List JValue) : Except String String := do
  let vals ← collectTexts xs
  let strs ← asStrings vals
  .ok (String.intercalate "\n" strs)

/-- `Claude.parse_response_message`: branch on `type == "message"`; in
that branch content starts as `""`, is only replaced when
`response.get("content")` is truthy, and is shape-sniffed (string /
dict / list); otherwise fall back to role `"assistant"` with the raw
`completion` value. -/
def parse_response_message (response : List (String × JValue)) : Except String Message :=
  if isMessageType (pyGet response "type") then
    if (pyGet response "content").truthy then
      match pyGet response "content" with
      | .str s => .ok ⟨pyGet response "role", .str s⟩
      | .obj fs => .ok ⟨pyGet response "role", (dlookup fs "text").getD (.str "")⟩
      | .arr xs => (joinTexts xs).map (fun s => ⟨pyGet response "role", .str s⟩)
      | _ => .ok ⟨pyGet response "role", .str ""⟩
    else .ok ⟨pyGet response "role", .str ""⟩
  else .ok ⟨.str "assistant", pyGet response "completion"⟩

/-- `Claude.parse_response_delta`: if the fragment has a `delta` key,
return `delta.get("text")` (an AttributeError when the delta value is not
a dict); otherwise `response.get("completion")`. -/
def parse_response_delta (response : List (String × JValue)) : Except String JValue :=
  if (dlookup response "delta").isSome then
    match (dlookup response "delta").getD (JValue.obj []) with
    | .obj fs => .ok (pyGet fs "text")
    | _ => .error "AttributeError: object has no attribute get"
  else .ok (pyGet response "completion")

/-- Per-element text extraction in the shape the list branch succeeds on:
an object whose `text` key holds a string. -/
def textOf : JValue → Option String
  | .obj fs =>
      match dlookup fs "text" with
      | some (.str s) => some s
      | _ => none
  | _ => none

/-- All texts of a content list, when every element is an object with a
string `text` field. -/
def textsOf : List JValue → Option (List String)
  | [] => some []
  | x :: xs =>
      match textOf x, textsOf xs with
      | some s, some ss => some (s :: ss)
      | _, _ => none

/-- Whether the `content` field, when it is a list, consists entirely of
objects carrying string `text` fields (the only shape the join step of
`parse_response_message` accepts). -/
def contentListGood (d : List (String × JValue)) : Bool :=
  match dlookup d "content" with
  | some (.arr xs) => (textsOf xs).isSome
  | _ => true

/-- The temperature field is acceptable to `check_hyperparameters`:
absent, exactly zero (skipped by truthiness), or inside the closed range. -/
def tempOk (c : Claude) : Bool :=
  match c.temperature with
  | none => true
  | some t => decide (t = 0) || (decide (0 ≤ t) && decide (t ≤ 1))

/-- The top_p field is acceptable to `check_hyperparameters`. -/
def topPOk (c : Claude) : Bool :=
  match c.top_p with
  | none => true
  | some p => decide (p = 0) || (decide (0 ≤ p) && decide (p ≤ 1))

/-- The top_k field is acceptable to `check_hyperparameters`. -/
def topKOk (c : Claude) : Bool :=
  match c.top_k with
  | none => true
  | some k => decide (k = 0) || (decide (0 ≤ k) && decide (k ≤ 500))

/-- The `content` value is of none of the three sniffed shapes (string,
dict, list): absent, `None`, a boolean or a number. -/
def otherContentShape (d : List (String × JValue)) : Bool :=
  match dlookup d "content" with
  | none => true
  | some .null => true
  | some (.bool _) => true
  | some (.num _) => true
  | _ => false

/-- The adapter built with all defaulted parameters of `Claude.__init__`. -/
def claudeDefault : Claude :=
  ⟨"AwsBedrockAnthropicClaude", "anthropic.claude-3-sonnet-20240229-v1:0", 8192,
   none, none, none, none, "bedrock-2023-05-31", none, none⟩

/-- A configuration whose model identifier is outside the allow-list. -/
def claudeBadModel : Claude :=
  ⟨"AwsBedrockAnthropicClaude", "claude-2", 8192,
   none, none, none, none, "bedrock-2023-05-31", none, none⟩

/-- A configuration with an out-of-range (truthy) temperature. -/
def claudeBadTemp : Claude :=
  ⟨"AwsBedrockAnthropicClaude", "anthropic.claude-3-sonnet-20240229-v1:0", 8192,
   some 2, none, none, none, "bedrock-2023-05-31", none, none⟩

/-- A configuration with all three hyperparameters exactly zero. -/
def claudeZeros : Claude :=
  ⟨"AwsBedrockAnthropicClaude", "anthropic.claude-3-sonnet-20240229-v1:0", 8192,
   some 0, some 0, some 0, none, "bedrock-2023-05-31", none, none⟩

/-- A configuration whose request_params override a computed key
(temperature) and add a fresh one. -/
def claudeRP : Claude :=
  ⟨"AwsBedrockAnthropicClaude", "anthropic.claude-3-sonnet-20240229-v1:0", 8192,
   some 1, none, none, none, "bedrock-2023-05-31",
   some [("temperature", JValue.str "hot"), ("extra", JValue.num 1)], none⟩

/-- A configuration whose request_params carry `messages` and `system`
keys, colliding with the keys built by `get_request_body`. -/
def claudeOverride : Claude :=
  ⟨"AwsBedrockAnthropicClaude", "anthropic.claude-3-sonnet-20240229-v1:0", 8192,
   none, none, none, none, "bedrock-2023-05-31",
   some [("messages", JValue.str "override"), ("system", JValue.str "ext")], none⟩

/-- One system message followed by one user message. -/
def exMsgsSU : List Message :=
  [⟨JValue.str "system", JValue.str "S"⟩, ⟨JValue.str "user", JValue.str "U"⟩]

/-- Two system messages, the second with empty (falsy) content, then a
user message. -/
def exMsgsSysEmpty : List Message :=
  [⟨JValue.str "system", JValue.str "S1"⟩,
   ⟨JValue.str "system", JValue.str ""⟩,
   ⟨JValue.str "user", JValue.str "U"⟩]

/-- A system message followed by a user message, for exercising the
system-prompt override of request_params. -/
def exMsgsOverride : List Message :=
  [⟨JValue.str "system", JValue.str "SP"⟩, ⟨JValue.str "user", JValue.str "U"⟩]

/-- The spec scenario: a full response of type `message` whose content is
a two-element list of text objects. -/
def respListEx : List (String × JValue) :=
  [("type", JValue.str "message"), ("role", JValue.str "assistant"),
   ("content", JValue.arr [JValue.obj [("text", JValue.str "a")],
                           JValue.obj [("text", JValue.str "b")]])]

/-- A well-shaped `message` response with a one-element content list. -/
def respListGoodEx : List (String × JValue) :=
  [("type", JValue.str "message"),
   ("content", JValue.arr [JValue.obj [("text", JValue.str "x")]])]

/-- A `message` response whose content list holds an object without a
`text` key (the shape the join step chokes on). -/
def respListBadEx : List (String × JValue) :=
  [("type", JValue.str "message"), ("content", JValue.arr [JValue.obj []])]

theorem ofirst_some (v : JValue) (o : Option JValue) :
    ofirst (some v) o = some v := rfl

theorem ofirst_none (o : Option JValue) : ofirst none o = o := rfl

theorem ofirst_none_right (o : Option JValue) : ofirst o none = o := by
  cases o <;> rfl

theorem dlookup_dinsert (d : List (String × JValue)) (k key : String) (v : JValue) :
    dlookup (dinsert d key v) k = if k = key then some v else dlookup d k := by
  induction d with
  | nil =>
      by_cases h : key = k
      · subst h; simp [dinsert, dlookup]
      · simp [dinsert, dlookup, h, Ne.symm h]
  | cons p rest ih =>
      obtain ⟨a, b⟩ := p
      by_cases ha : a = key
      · subst ha
        by_cases hk : k = a
        · subst hk; simp [dinsert, dlookup]
        · simp [dinsert, dlookup, hk, Ne.symm hk]
      · by_cases hak : a = k
        · subst hak
          simp [dinsert, dlookup, ha]
        · simp [dinsert, dlookup, ha, hak, ih]

theorem dlookup_append (a b : List (String × JValue)) (k : String) :
    dlookup (a ++ b) k = ofirst (dlookup a k) (dlookup b k) := by
  induction a with
  | nil => simp [dlookup, ofirst]
  | cons p rest ih =>
      obtain ⟨k0, v0⟩ := p
      by_cases h : k0 = k <;> simp [dlookup, h, ih, ofirst]

theorem dlookup_dupdate (e d : List (String × JValue)) (k : String) :
    dlookup (dupdate d e) k = ofirst (dlookup e.reverse k) (dlookup d k) := by
  induction e generalizing d with
  | nil => simp [dupdate, dlookup, ofirst]
  | cons p rest ih =>
      obtain ⟨k0, v0⟩ := p
      rw [dupdate, ih, List.reverse_cons, dlookup_append]
      cases h : dlookup rest.reverse k with
      | some v => simp [ofirst]
      | none =>
          rw [dlookup_dinsert]
          by_cases hk : k0 = k
          · subst hk; simp [ofirst, dlookup]
          · simp [ofirst, dlookup, hk, Ne.symm hk]

theorem dlookup_eq_none_iff (d : List (String × JValue)) (k : String) :
    dlookup d k = none ↔ ∀ p ∈ d, p.1 ≠ k := by
  induction d with
  | nil => simp [dlookup]
  | cons p rest ih =>
      obtain ⟨a, b⟩ := p
      by_cases h : a = k
      · subst h; simp [dlookup]
      · simp [dlookup, h, ih]

theorem dlookup_reverse_none (d : List (String × JValue)) (k : String)
    (h : dlookup d k = none) : dlookup d.reverse k = none := by
  rw [dlookup_eq_none_iff] at h ⊢
  intro p hp
  exact h p (List.mem_reverse.mp hp)

theorem mem_keys_dinsert (d : List (String × JValue)) (k : String) (v : JValue) (k' : String) :
    k' ∈ (dinsert d k v).map Prod.fst ↔ k' ∈ d.map Prod.fst ∨ k' = k := by
  induction d with
  | nil => simp [dinsert]
  | cons p rest ih =>
      obtain ⟨a, b⟩ := p
      by_cases h : a = k
      · subst h; simp [dinsert]; tauto
      · simp [dinsert, h, ih]; tauto

theorem nodup_keys_dinsert (d : List (String × JValue)) (k : String) (v : JValue)
    (h : (d.map Prod.fst).Nodup) : ((dinsert d k v).map Prod.fst).Nodup := by
  induction d with
  | nil => simp [dinsert]
  | cons p rest ih =>
      obtain ⟨a, b⟩ := p
      by_cases hk : a = k
      · subst hk; simpa [dinsert] using h
      · simp only [List.map_cons, List.nodup_cons] at h
        obtain ⟨ha, hrest⟩ := h
        simp only [dinsert, if_neg hk, List.map_cons, List.nodup_cons]
        refine ⟨?_, ih hrest⟩
        intro hmem
        rcases (mem_keys_dinsert rest k v a).mp hmem with hm | hm
        · exact ha hm
        · exact hk hm

theorem nodup_keys_dupdate (e d : List (String × JValue))
    (h : (d.map Prod.fst).Nodup) : ((dupdate d e).map Prod.fst).Nodup := by
  induction e generalizing d with
  | nil => exact h
  | cons p rest ih =>
      obtain ⟨k, v⟩ := p
      exact ih (dinsert d k v) (nodup_keys_dinsert d k v h)

theorem dlookup_eq_none_of_not_mem (d : List (String × JValue)) (k : String)
    (h : k ∉ d.map Prod.fst) : dlookup d k = none := by
  rw [dlookup_eq_none_iff]
  intro p hp he
  exact h (he ▸ List.mem_map_of_mem Prod.fst hp)

theorem dlookup_reverse_of_nodup (d : List (String × JValue)) (k : String)
    (h : (d.map Prod.fst).Nodup) : dlookup d.reverse k = dlookup d k := by
  induction d with
  | nil => rfl
  | cons p rest ih =>
      obtain ⟨a, b⟩ := p
      simp only [List.map_cons, List.nodup_cons] at h
      obtain ⟨ha, hrest⟩ := h
      rw [List.reverse_cons, dlookup_append, ih hrest]
      by_cases hk : a = k
      · subst hk
        rw [dlookup_eq_none_of_not_mem rest a ha]
        simp [ofirst, dlookup]
      · cases hr : dlookup rest k <;> simp [ofirst, dlookup, hk, hr]

theorem dlookup_dupdate_nodup (e d : List (String × JValue)) (k : String)
    (h : (e.map Prod.fst).Nodup) :
    dlookup (dupdate d e) k = ofirst (dlookup e k) (dlookup d k) := by
  rw [dlookup_dupdate, dlookup_reverse_of_nodup e k h]

theorem isSome_dlookup_dupdate (d e : List (String × JValue)) (k : String)
    (h : (dlookup d k).isSome = true) : (dlookup (dupdate d e) k).isSome = true := by
  rw [dlookup_dupdate]
  cases he : dlookup e.reverse k with
  | some v => simp [ofirst]
  | none => simpa [ofirst] using h

theorem scanMessages_spec (msgs : List Message) (acc : Option JValue × List JValue) :
    scanMessages acc msgs
      = (ofirst (lastSysContent msgs) acc.1, acc.2 ++ nonSystemPairs msgs) := by
  induction msgs generalizing acc with
  | nil => simp [scanMessages, lastSysContent, nonSystemPairs, ofirst]
  | cons m rest ih =>
      by_cases h : isSystemRole m.role
      · rw [scanMessages, if_pos h, ih]
        cases hl : lastSysContent rest with
        | some v =>
            simp [lastSysContent, hl, ofirst, nonSystemPairs, List.filter_cons, h]
        | none =>
            simp [lastSysContent, hl, ofirst, nonSystemPairs, List.filter_cons, h]
      · rw [scanMessages, if_neg h, ih]
        have hb : isSystemRole m.role = false := by
          cases hc : isSystemRole m.role
          · rfl
          · exact absurd hc h
        cases hl : lastSysContent rest with
        | some v =>
            simp [lastSysContent, hl, ofirst, nonSystemPairs, List.filter_cons, hb]
        | none =>
            simp [lastSysContent, hl, ofirst, nonSystemPairs, List.filter_cons, hb]

theorem get_request_body_eq (c : Claude) (msgs : List Message) :
    get_request_body c msgs =
      match lastSysContent msgs with
      | some sp =>
          if sp.truthy then
            dinsert (dupdate [("messages", JValue.arr (nonSystemPairs msgs))] (api_kwargs c))
              "system" sp
          else dupdate [("messages", JValue.arr (nonSystemPairs msgs))] (api_kwargs c)
      | none => dupdate [("messages", JValue.arr (nonSystemPairs msgs))] (api_kwargs c) := by
  simp only [get_request_body]
  rw [scanMessages_spec]
  simp [ofirst_none_right]

theorem dlookup_body_base (c : Claude) (msgs : List Message) (k : String)
    (hne : k ≠ "messages")
    (hk : dlookup (api_kwargs c) k = none) :
    dlookup (dupdate [("messages", JValue.arr (nonSystemPairs msgs))] (api_kwargs c)) k
      = none := by
  rw [dlookup_dupdate, dlookup_reverse_none _ _ hk]
  simp [ofirst, dlookup, hne, Ne.symm hne]

theorem pre_lookup_max_tokens (c : Claude) :
    dlookup (api_kwargs_pre c) "max_tokens" = some (JValue.num (c.max_tokens : Rat)) := by
  obtain ⟨nm, mdl, mt, te, tp, tk, ss, av, rp, cp⟩ := c
  simp only [api_kwargs_pre]
  cases te <;> cases tp <;> cases tk <;> cases ss <;> dsimp only [] <;>
    (try split_ifs) <;> simp [dlookup_dinsert, dlookup]

theorem pre_lookup_anthropic_version (c : Claude) :
    dlookup (api_kwargs_pre c) "anthropic_version" = some (JValue.str c.anthropic_version) := by
  obtain ⟨nm, mdl, mt, te, tp, tk, ss, av, rp, cp⟩ := c
  simp only [api_kwargs_pre]
  cases te <;> cases tp <;> cases tk <;> cases ss <;> dsimp only [] <;>
    (try split_ifs) <;> simp [dlookup_dinsert, dlookup]

theorem pre_lookup_temperature (c : Claude) :
    dlookup (api_kwargs_pre c) "temperature"
      = (match c.temperature with
         | some t => if t = 0 then none else some (JValue.num t)
         | none => none) := by
  obtain ⟨nm, mdl, mt, te, tp, tk, ss, av, rp, cp⟩ := c
  simp only [api_kwargs_pre]
  cases te <;> cases tp <;> cases tk <;> cases ss <;> dsimp only [] <;>
    (try split_ifs) <;> simp_all [dlookup_dinsert, dlookup]

theorem pre_lookup_top_p (c : Claude) :
    dlookup (api_kwargs_pre c) "top_p"
      = (match c.top_p with
         | some p => if p = 0 then none else some (JValue.num p)
         | none => none) := by
  obtain ⟨nm, mdl, mt, te, tp, tk, ss, av, rp, cp⟩ := c
  simp only [api_kwargs_pre]
  cases te <;> cases tp <;> cases tk <;> cases ss <;> dsimp only [] <;>
    (try split_ifs) <;> simp_all [dlookup_dinsert, dlookup]

theorem pre_lookup_top_k (c : Claude) :
    dlookup (api_kwargs_pre c) "top_k"
      = (match c.top_k with
         | some k => if k = 0 then none else some (JValue.num (k : Rat))
         | none => none) := by
  obtain ⟨nm, mdl, mt, te, tp, tk, ss, av, rp, cp⟩ := c
  simp only [api_kwargs_pre]
  cases te <;> cases tp <;> cases tk <;> cases ss <;> dsimp only [] <;>
    (try split_ifs) <;> simp_all [dlookup_dinsert, dlookup]

theorem pre_lookup_stop_sequences (c : Claude) :
    dlookup (api_kwargs_pre c) "stop_sequences"
      = (match c.stop_sequences with
         | some l => if l = [] then none else some (JValue.arr (l.map JValue.str))
         | none => none) := by
  obtain ⟨nm, mdl, mt, te, tp, tk, ss, av, rp, cp⟩ := c
  simp only [api_kwargs_pre]
  cases te <;> cases tp <;> cases tk <;> cases ss <;> dsimp only [] <;>
    (try split_ifs) <;> simp_all [dlookup_dinsert, dlookup]

theorem api_kwargs_eq (c : Claude) :
    api_kwargs c = dupdate (api_kwargs_pre c) (c.request_params.getD []) := by
  unfold api_kwargs
  cases hrp : c.request_params with
  | none => rfl
  | some rp => cases rp with
    | nil => rfl
    | cons p rest => rfl

theorem api_kwargs_pre_nodup (c : Claude) :
    ((api_kwargs_pre c).map Prod.fst).Nodup := by
  obtain ⟨nm, mdl, mt, te, tp, tk, ss, av, rp, cp⟩ := c
  simp only [api_kwargs_pre]
  cases te <;> cases tp <;> cases tk <;> cases ss <;> dsimp only [] <;>
    (try split_ifs) <;>
    (repeat apply nodup_keys_dinsert) <;>
    simp

theorem api_kwargs_nodup (c : Claude) :
    ((api_kwargs c).map Prod.fst).Nodup := by
  rw [api_kwargs_eq]
  exact nodup_keys_dupdate _ _ (api_kwargs_pre_nodup c)

theorem initValidate_eq_hyper (c : Claude) (hm : c.model ∈ ALLOWED_CLAUDE_IDS) :
    initValidate c = check_hyperparameters c := by
  simp [initValidate, check_model_id, hm, Bind.bind, Except.bind]

theorem hyper_err_of_temp (c : Claude)
    (h : isErr (check_temperature c) = true) :
    isErr (check_hyperparameters c) = true := by
  unfold check_hyperparameters
  cases hc : check_temperature c with
  | error e => simp [Bind.bind, Except.bind, hc, isErr]
  | ok u => rw [hc] at h; simp [isErr] at h

theorem hyper_err_of_top_p (c : Claude)
    (h : isErr (check_top_p c) = true) :
    isErr (check_hyperparameters c) = true := by
  unfold check_hyperparameters
  cases hc : check_temperature c with
  | error e => simp [Bind.bind, Except.bind, hc, isErr]
  | ok u =>
      cases hp : check_top_p c with
      | error e => simp [Bind.bind, Except.bind, hc, hp, isErr]
      | ok u2 => rw [hp] at h; simp [isErr] at h

theorem hyper_err_of_top_k (c : Claude)
    (h : isErr (check_top_k c) = true) :
    isErr (check_hyperparameters c) = true := by
  unfold check_hyperparameters
  cases hc : check_temperature c with
  | error e => simp [Bind.bind, Except.bind, hc, isErr]
  | ok u =>
      cases hp : check_top_p c with
      | error e => simp [Bind.bind, Except.bind, hc, hp, isErr]
      | ok u2 =>
          cases hk : check_top_k c with
          | error e => simp [Bind.bind, Except.bind, hc, hp, hk, isErr]
          | ok u3 => rw [hk] at h; simp [isErr] at h

theorem hyper_ok (c : Claude)
    (h1 : check_temperature c = .ok ()) (h2 : check_top_p c = .ok ())
    (h3 : check_top_k c = .ok ()) :
    check_hyperparameters c = .ok () := by
  simp [check_hyperparameters, h1, h2, h3, Bind.bind, Except.bind]

theorem check_temperature_err (c : Claude) (t : Rat)
    (ht : c.temperature = some t) (hne : t ≠ 0) (hout : t < 0 ∨ 1 < t) :
    isErr (check_temperature c) = true := by
  have hnot : ¬(0 ≤ t ∧ t ≤ 1) := by
    rcases hout with h | h
    · exact fun hc => absurd hc.1 (not_le.mpr h)
    · exact fun hc => absurd hc.2 (not_le.mpr h)
  simp [check_temperature, ht, hne, hnot, isErr]

theorem check_top_p_err (c : Claude) (p : Rat)
    (hp : c.top_p = some p) (hne : p ≠ 0) (hout : p < 0 ∨ 1 < p) :
    isErr (check_top_p c) = true := by
  have hnot : ¬(0 ≤ p ∧ p ≤ 1) := by
    rcases hout with h | h
    · exact fun hc => absurd hc.1 (not_le.mpr h)
    · exact fun hc => absurd hc.2 (not_le.mpr h)
  simp [check_top_p, hp, hne, hnot, isErr]

theorem check_top_k_err (c : Claude) (k : Int)
    (hk : c.top_k = some k) (hne : k ≠ 0) (hout : k < 0 ∨ 500 < k) :
    isErr (check_top_k c) = true := by
  have hnot : ¬(0 ≤ k ∧ k ≤ 500) := by
    rcases hout with h | h
    · exact fun hc => absurd hc.1 (not_le.mpr h)
    · exact fun hc => absurd hc.2 (not_le.mpr h)
  simp [check_top_k, hk, hne, hnot, isErr]

theorem check_temperature_ok (c : Claude) (h : tempOk c = true) :
    check_temperature c = .ok () := by
  unfold check_temperature
  unfold tempOk at h
  cases hc : c.temperature with
  | none => rfl
  | some t =>
      rw [hc] at h
      by_cases h0 : t = 0
      · simp [h0]
      · simp only [h0, decide_False, Bool.false_or, Bool.and_eq_true, decide_eq_true_eq] at h
        simp [h0, h]

theorem check_top_p_ok (c : Claude) (h : topPOk c = true) :
    check_top_p c = .ok () := by
  unfold check_top_p
  unfold topPOk at h
  cases hc : c.top_p with
  | none => rfl
  | some p =>
      rw [hc] at h
      by_cases h0 : p = 0
      · simp [h0]
      · simp only [h0, decide_False, Bool.false_or, Bool.and_eq_true, decide_eq_true_eq] at h
        simp [h0, h]

theorem check_top_k_ok (c : Claude) (h : topKOk c = true) :
    check_top_k c = .ok () := by
  unfold check_top_k
  unfold topKOk at h
  cases hc : c.top_k with
  | none => rfl
  | some k =>
      rw [hc] at h
      by_cases h0 : k = 0
      · simp [h0]
      · simp only [h0, decide_False, Bool.false_or, Bool.and_eq_true, decide_eq_true_eq] at h
        simp [h0, h]

theorem isErr_initValidate_of_hyper (c : Claude)
    (hm : c.model ∈ ALLOWED_CLAUDE_IDS)
    (h : isErr (check_hyperparameters c) = true) :
    isErr (initValidate c) = true := by
  rw [initValidate_eq_hyper c hm]; exact h

theorem pyGetText_of_textOf (x : JValue) (st : String) (h : textOf x = some st) :
    pyGetText x = .ok (JValue.str st) := by
  cases x with
  | obj fs =>
      simp only [textOf] at h
      cases hlk : dlookup fs "text" with
      | none => rw [hlk] at h; simp at h
      | some v =>
          rw [hlk] at h
          cases v <;> simp at h
          subst h
          simp [pyGetText, hlk]
  | null => simp [textOf] at h
  | bool b => simp [textOf] at h
  | num q => simp [textOf] at h
  | str s => simp [textOf] at h
  | arr xs => simp [textOf] at h

theorem collectTexts_of_textsOf (xs : List JValue) (ss : List String)
    (h : textsOf xs = some ss) :
    collectTexts xs = .ok (ss.map JValue.str) := by
  induction xs generalizing ss with
  | nil =>
      simp only [textsOf] at h
      simp at h
      subst h
      rfl
  | cons x rest ih =>
      simp only [textsOf] at h
      cases hx : textOf x with
      | none => rw [hx] at h; simp at h
      | some st =>
          rw [hx] at h
          cases hrest : textsOf rest with
          | none => rw [hrest] at h; simp at h
          | some ss2 =>
              rw [hrest] at h
              simp at h
              subst h
              simp [collectTexts, pyGetText_of_textOf x st hx, ih ss2 hrest,
                Bind.bind, Except.bind]

theorem asStrings_map_str (ss : List String) :
    asStrings (ss.map JValue.str) = .ok ss := by
  induction ss with
  | nil => rfl
  | cons s rest ih => simp [asStrings, toStr, ih, Bind.bind, Except.bind]

theorem joinTexts_of_textsOf (xs : List JValue) (ss : List String)
    (h : textsOf xs = some ss) :
    joinTexts xs = .ok (String.intercalate "\n" ss) := by
  simp [joinTexts, collectTexts_of_textsOf xs ss h, asStrings_map_str, Bind.bind, Except.bind]

/-- Claim C1 (amended): for an adapter whose merged effective parameters do
not themselves carry a `messages` key, request-body construction places
exactly the non-system messages, as role/content pairs in original order,
under the `messages` key; system-role messages are excluded; and when the
content of the last system-role message is truthy it becomes the top-level
`system` field (silent last-write-wins). -/
theorem c1_request_body_shape (c : Claude) (msgs : List Message)
    (hm : dlookup (api_kwargs c) "messages" = none) :
    dlookup (get_request_body c msgs) "messages"
      = some (JValue.arr (nonSystemPairs msgs))
    ∧ (∀ v, lastSysContent msgs = some v → v.truthy = true →
        dlookup (get_request_body c msgs) "system" = some v) := by
  have hbase : dlookup
      (dupdate [("messages", JValue.arr (nonSystemPairs msgs))] (api_kwargs c)) "messages"
      = some (JValue.arr (nonSystemPairs msgs)) := by
    rw [dlookup_dupdate, dlookup_reverse_none _ _ hm]
    simp [ofirst, dlookup]
  constructor
  · rw [get_request_body_eq]
    cases hl : lastSysContent msgs with
    | none => exact hbase
    | some sp =>
        by_cases ht : sp.truthy = true
        · simp only [ht, if_true]
          rw [dlookup_dinsert]
          simpa using hbase
        · simp only [Bool.not_eq_true] at ht
          simp only [ht, Bool.false_eq_true, if_false]
          exact hbase
  · intro v hv htr
    rw [get_request_body_eq, hv]
    simp only [htr, if_true]
    rw [dlookup_dinsert]
    simp

/-- Claim C1 counterexample: with two system messages whose last content is
the empty string, the claim as stated would make `""` the top-level
`system` field; the code instead omits the field entirely, because the
empty string is falsy. -/
theorem c1_counterexample :
    lastSysContent exMsgsSysEmpty = some (JValue.str "")
    ∧ dlookup (get_request_body claudeDefault exMsgsSysEmpty) "system" = none :=
  ⟨rfl, rfl⟩

/-- Claim C1 witness: the default adapter on a system+user list. -/
theorem c1_witness :
    dlookup (get_request_body claudeDefault exMsgsSU) "messages"
      = some (JValue.arr [JValue.obj [("role", JValue.str "user"), ("content", JValue.str "U")]])
    ∧ dlookup (get_request_body claudeDefault exMsgsSU) "system" = some (JValue.str "S") := by
  have h := c1_request_body_shape claudeDefault exMsgsSU rfl
  exact ⟨h.1, h.2 (JValue.str "S") rfl rfl⟩

/-- Claim C9: when the merged effective parameters carry no `system` key of
their own and the last system-role message has null or empty-string
content, the request body has no `system` key at all, even when an earlier
system message had non-empty content. -/
theorem c9_system_omitted_when_falsy (c : Claude) (msgs : List Message)
    (hs : dlookup (api_kwargs c) "system" = none)
    (hl : lastSysContent msgs = some JValue.null
        ∨ lastSysContent msgs = some (JValue.str "")) :
    dlookup (get_request_body c msgs) "system" = none := by
  have hbase : dlookup
      (dupdate [("messages", JValue.arr (nonSystemPairs msgs))] (api_kwargs c)) "system"
      = none :=
    dlookup_body_base c msgs "system" (by decide) hs
  rw [get_request_body_eq]
  rcases hl with hl | hl <;> rw [hl] <;> simp only [JValue.truthy] <;>
    simp <;> exact hbase

/-- Claim C9 witness: earlier system message "S1", last system message with
empty content: no `system` key in the body. -/
theorem c9_witness :
    dlookup (get_request_body claudeDefault exMsgsSysEmpty) "system" = none :=
  c9_system_omitted_when_falsy claudeDefault exMsgsSysEmpty rfl (Or.inr rfl)

/-- Claim C10: request_params are merged after the constructed `messages`
key, so a `messages` key there overrides the built array; the `system`
assignment happens after that merge, so a truthy captured system prompt
overrides any `system` key supplied in request_params. -/
theorem c10_merge_order (c : Claude) (msgs : List Message) :
    (∀ v, dlookup (api_kwargs c) "messages" = some v →
        dlookup (get_request_body c msgs) "messages" = some v)
    ∧ (∀ rp v, c.request_params = some rp → (rp.map Prod.fst).Nodup →
        dlookup rp "messages" = some v →
        dlookup (get_request_body c msgs) "messages" = some v)
    ∧ (∀ v, lastSysContent msgs = some v → v.truthy = true →
        dlookup (get_request_body c msgs) "system" = some v) := by
  have key : ∀ v, dlookup (api_kwargs c) "messages" = some v →
      dlookup (get_request_body c msgs) "messages" = some v := by
    intro v hv
    have hbase : dlookup
        (dupdate [("messages", JValue.arr (nonSystemPairs msgs))] (api_kwargs c)) "messages"
        = some v := by
      rw [dlookup_dupdate_nodup (api_kwargs c) _ _ (api_kwargs_nodup c), hv]
      simp [ofirst]
    rw [get_request_body_eq]
    cases hl : lastSysContent msgs with
    | none => exact hbase
    | some sp =>
        by_cases ht : sp.truthy = true
        · simp only [ht, if_true]
          rw [dlookup_dinsert]
          simpa using hbase
        · simp only [Bool.not_eq_true] at ht
          simp only [ht, Bool.false_eq_true, if_false]
          exact hbase
  refine ⟨key, ?_, ?_⟩
  · intro rp v hrp hnd hv
    apply key
    rw [api_kwargs_eq, hrp]
    simp only [Option.getD_some]
    rw [dlookup_dupdate_nodup rp _ _ hnd, hv]
    simp [ofirst]
  · intro v hv htr
    rw [get_request_body_eq, hv]
    simp only [htr, if_true]
    rw [dlookup_dinsert]
    simp

/-- Claim C10 witness: request_params carrying `messages` and `system`
keys; the extension wins on `messages`, the truthy system prompt wins on
`system`. -/
theorem c10_witness :
    dlookup (get_request_body claudeOverride exMsgsOverride) "messages"
      = some (JValue.str "override")
    ∧ dlookup (get_request_body claudeOverride exMsgsOverride) "system"
      = some (JValue.str "SP") := by
  have h := c10_merge_order claudeOverride exMsgsOverride
  refine ⟨h.2.1 [("messages", JValue.str "override"), ("system", JValue.str "ext")]
      (JValue.str "override") rfl (by decide) rfl, h.2.2 (JValue.str "SP") rfl rfl⟩

/-- Claim C4: for each of temperature, top_p and top_k, a present, truthy
(non-zero) value outside its documented closed range makes construction
fail; a value of exactly 0 skips validation and construction succeeds
(given the other checks pass). -/
theorem c4_hyperparameter_validation (c : Claude) (hm : c.model ∈ ALLOWED_CLAUDE_IDS) :
    ((∃ t, c.temperature = some t ∧ t ≠ 0 ∧ (t < 0 ∨ 1 < t)) →
        isErr (initValidate c) = true)
    ∧ ((∃ p, c.top_p = some p ∧ p ≠ 0 ∧ (p < 0 ∨ 1 < p)) →
        isErr (initValidate c) = true)
    ∧ ((∃ k, c.top_k = some k ∧ k ≠ 0 ∧ (k < 0 ∨ 500 < k)) →
        isErr (initValidate c) = true)
    ∧ (tempOk c = true → topPOk c = true → topKOk c = true →
        initValidate c = .ok ()) := by
  refine ⟨?_, ?_, ?_, ?_⟩
  · rintro ⟨t, ht, hne, hout⟩
    exact isErr_initValidate_of_hyper c hm
      (hyper_err_of_temp c (check_temperature_err c t ht hne hout))
  · rintro ⟨p, hp, hne, hout⟩
    exact isErr_initValidate_of_hyper c hm
      (hyper_err_of_top_p c (check_top_p_err c p hp hne hout))
  · rintro ⟨k, hk, hne, hout⟩
    exact isErr_initValidate_of_hyper c hm
      (hyper_err_of_top_k c (check_top_k_err c k hk hne hout))
  · intro h1 h2 h3
    rw [initValidate_eq_hyper c hm]
    exact hyper_ok c (check_temperature_ok c h1) (check_top_p_ok c h2) (check_top_k_ok c h3)

/-- Claim C4 witness: temperature 2 (truthy, out of range) fails;
temperature, top_p and top_k all exactly 0 construct successfully. -/
theorem c4_witness :
    isErr (initValidate claudeBadTemp) = true
    ∧ initValidate claudeZeros = .ok () :=
  ⟨(c4_hyperparameter_validation claudeBadTemp (by decide)).1
      ⟨2, rfl, by decide, Or.inr (by decide)⟩,
   (c4_hyperparameter_validation claudeZeros (by decide)).2.2.2 rfl rfl rfl⟩

/-- Claim C5: a model identifier outside the fixed allow-list makes
construction fail with an error message naming both the allowed set and
the offending identifier; an identifier in the allow-list passes the model
check. -/
theorem c5_model_validation (c : Claude) :
    (c.model ∉ ALLOWED_CLAUDE_IDS →
        initValidate c = .error (modelErrorMessage c.model)
        ∧ modelErrorMessage c.model
            = "When using AWS Claude messaging API, you should choose from this list: "
              ++ pyStrList ALLOWED_CLAUDE_IDS ++ "\nYou passed " ++ c.model)
    ∧ (c.model ∈ ALLOWED_CLAUDE_IDS → check_model_id c = .ok ()) := by
  constructor
  · intro h
    refine ⟨?_, rfl⟩
    simp [initValidate, check_model_id, h, Bind.bind, Except.bind]
  · intro h
    simp [check_model_id, h]

/-- Claim C5 witness: the unsupported identifier "claude-2" fails with the
message naming it and the allow-list; the default identifier passes. -/
theorem c5_witness :
    initValidate claudeBadModel = .error (modelErrorMessage "claude-2")
    ∧ check_model_id claudeDefault = .ok () :=
  ⟨((c5_model_validation claudeBadModel).1 (by decide)).1,
   (c5_model_validation claudeDefault).2 (by decide)⟩

/-- Claim C2: for a payload of type "message", parsing returns the
payload's role, and content by shape: a string verbatim; an object's
`text` field (empty string when absent); a list's `text` fields joined
with newlines in order; any other shape (absent, null, boolean, number)
gives empty-string content. -/
theorem c2_parse_message_shapes (d : List (String × JValue))
    (hty : pyGet d "type" = JValue.str "message") :
    (∀ s, dlookup d "content" = some (JValue.str s) →
        parse_response_message d = .ok ⟨pyGet d "role", JValue.str s⟩)
    ∧ (∀ fs, dlookup d "content" = some (JValue.obj fs) →
        parse_response_message d
          = .ok ⟨pyGet d "role", (dlookup fs "text").getD (JValue.str "")⟩)
    ∧ (∀ xs ss, dlookup d "content" = some (JValue.arr xs) → textsOf xs = some ss →
        parse_response_message d
          = .ok ⟨pyGet d "role", JValue.str (String.intercalate "\n" ss)⟩)
    ∧ (otherContentShape d = true →
        parse_response_message d = .ok ⟨pyGet d "role", JValue.str ""⟩) := by
  refine ⟨?_, ?_, ?_, ?_⟩
  · intro s hs
    have hc : pyGet d "content" = JValue.str s := by simp [pyGet, hs]
    by_cases h0 : s = ""
    · subst h0
      simp [parse_response_message, hty, isMessageType, hc, JValue.truthy]
    · simp [parse_response_message, hty, isMessageType, hc, JValue.truthy, h0]
  · intro fs hfs
    have hc : pyGet d "content" = JValue.obj fs := by simp [pyGet, hfs]
    rcases fs with _ | ⟨p, rest⟩
    · simp [parse_response_message, hty, isMessageType, hc, JValue.truthy, dlookup]
    · simp [parse_response_message, hty, isMessageType, hc, JValue.truthy]
  · intro xs ss hxs hss
    have hc : pyGet d "content" = JValue.arr xs := by simp [pyGet, hxs]
    rcases xs with _ | ⟨x, rest⟩
    · have hss2 : ss = [] := by
        simp only [textsOf] at hss
        exact (Option.some_injective _ hss).symm
      subst hss2
      simp [parse_response_message, hty, isMessageType, hc, JValue.truthy,
        String.intercalate]
    · simp [parse_response_message, hty, isMessageType, hc, JValue.truthy,
        joinTexts_of_textsOf _ ss hss, Except.map]
  · intro hother
    unfold otherContentShape at hother
    cases hc : dlookup d "content" with
    | none =>
        have hcc : pyGet d "content" = JValue.null := by simp [pyGet, hc]
        simp [parse_response_message, hty, isMessageType, hcc, JValue.truthy]
    | some v =>
        rw [hc] at hother
        have hcc : pyGet d "content" = v := by simp [pyGet, hc]
        cases v with
        | null => simp [parse_response_message, hty, isMessageType, hcc, JValue.truthy]
        | bool b =>
            cases b <;>
              simp [parse_response_message, hty, isMessageType, hcc, JValue.truthy]
        | num q =>
            by_cases h0 : q = 0 <;>
              simp [parse_response_message, hty, isMessageType, hcc, JValue.truthy, h0]
        | str s => simp at hother
        | arr xs => simp at hother
        | obj fs => simp at hother

/-- Claim C2 witness: the spec scenario with content list of two text
objects parses to content "a\nb" with the payload role. -/
theorem c2_witness :
    parse_response_message respListEx
      = .ok ⟨JValue.str "assistant", JValue.str "a\nb"⟩ :=
  (c2_parse_message_shapes respListEx rfl).2.2.1
    [JValue.obj [("text", JValue.str "a")], JValue.obj [("text", JValue.str "b")]]
    ["a", "b"] rfl rfl

/-- Claim C3 counterexample: a `message` payload whose content list holds
an object without a `text` key makes the join step raise (TypeError on
joining None), contradicting the claim that no payload raises. -/
theorem c3_counterexample :
    isErr (parse_response_message respListBadEx) = true := rfl

/-- Claim C3 (amended): full-response parsing returns a message without
raising for every payload whose content list, if any, consists of objects
each carrying a string `text` field; outside that case the join step can
raise. Missing fields elsewhere degrade to empty or null content. -/
theorem c3_parse_never_raises (d : List (String × JValue))
    (h : contentListGood d = true) :
    ∃ m, parse_response_message d = .ok m := by
  have herr : isErr (parse_response_message d) = false := by
    unfold parse_response_message
    cases hty : isMessageType (pyGet d "type") with
    | false => simp [isErr]
    | true =>
        cases htr : (pyGet d "content").truthy with
        | false => simp [isErr]
        | true =>
            cases hc : pyGet d "content" with
            | arr xs =>
                have hlk : dlookup d "content" = some (JValue.arr xs) := by
                  unfold pyGet at hc
                  cases hd : dlookup d "content" with
                  | none => rw [hd] at hc; simp at hc
                  | some v => rw [hd] at hc; simp at hc; rw [hc]
                unfold contentListGood at h
                rw [hlk] at h
                obtain ⟨ss, hss⟩ := Option.isSome_iff_exists.mp h
                simp [joinTexts_of_textsOf xs ss hss, Except.map, isErr]
            | null => simp [isErr]
            | bool b => simp [isErr]
            | num q => simp [isErr]
            | str s => simp [isErr]
            | obj fs => simp [isErr]
  cases hp : parse_response_message d with
  | ok m => exact ⟨m, rfl⟩
  | error e => rw [hp] at herr; simp [isErr] at herr

/-- Claim C3 witness: a well-shaped content list parses without error. -/
theorem c3_witness : ∃ m, parse_response_message respListGoodEx = .ok m :=
  c3_parse_never_raises respListGoodEx rfl

/-- Claim C7: a fragment with a `delta` object yields that delta's `text`
value (null when absent); a fragment without `delta` yields its
`completion` value (null when absent); the empty fragment yields null. -/
theorem c7_parse_delta (d : List (String × JValue)) :
    (∀ fs, dlookup d "delta" = some (JValue.obj fs) →
        parse_response_delta d = .ok (pyGet fs "text"))
    ∧ ((dlookup d "delta").isNone = true →
        parse_response_delta d = .ok (pyGet d "completion"))
    ∧ parse_response_delta [] = .ok JValue.null := by
  refine ⟨?_, ?_, rfl⟩
  · intro fs hfs
    simp [parse_response_delta, hfs]
  · intro h
    have hd : dlookup d "delta" = none := Option.isNone_iff_eq_none.mp h
    simp [parse_response_delta, hd]

/-- Claim C7 witness: the three spec scenarios. -/
theorem c7_witness :
    parse_response_delta [("delta", JValue.obj [("text", JValue.str "chunk")])]
      = .ok (JValue.str "chunk")
    ∧ parse_response_delta [("completion", JValue.str "full")] = .ok (JValue.str "full")
    ∧ parse_response_delta [] = .ok JValue.null :=
  ⟨(c7_parse_delta [("delta", JValue.obj [("text", JValue.str "chunk")])]).1
      [("text", JValue.str "chunk")] rfl,
   (c7_parse_delta [("completion", JValue.str "full")]).2.1 rfl,
   (c7_parse_delta []).2.2⟩

/-- Claim C8: a payload whose `type` is not the string "message" parses to
a message with the fixed role "assistant" and the raw `completion` value,
null when that key is absent or null. -/
theorem c8_parse_fallback (d : List (String × JValue))
    (h : isMessageType (pyGet d "type") = false) :
    parse_response_message d
      = .ok ⟨JValue.str "assistant", (dlookup d "completion").getD JValue.null⟩ := by
  have h2 : isMessageType ((dlookup d "type").getD JValue.null) = false := h
  simp [parse_response_message, h2, pyGet]

/-- Claim C8 witness: the spec scenario with only a `completion` key. -/
theorem c8_witness :
    parse_response_message [("completion", JValue.str "hello")]
      = .ok ⟨JValue.str "assistant", JValue.str "hello"⟩ :=
  c8_parse_fallback [("completion", JValue.str "hello")] rfl

/-- Claim C6: the effective-parameters mapping always carries the
max_tokens and anthropic_version keys; before the final merge it carries
temperature, top_p, top_k and stop_sequences exactly when each is present
and truthy; and the final mapping is the shallow merge of the computed
mapping with request_params on top, whose keys override computed values. -/
theorem c6_api_kwargs_derivation (c : Claude) :
    (dlookup (api_kwargs c) "max_tokens").isSome = true
    ∧ (dlookup (api_kwargs c) "anthropic_version").isSome = true
    ∧ ((dlookup (api_kwargs_pre c) "temperature").isSome = true
        ↔ ∃ t, c.temperature = some t ∧ t ≠ 0)
    ∧ ((dlookup (api_kwargs_pre c) "top_p").isSome = true
        ↔ ∃ p, c.top_p = some p ∧ p ≠ 0)
    ∧ ((dlookup (api_kwargs_pre c) "top_k").isSome = true
        ↔ ∃ k, c.top_k = some k ∧ k ≠ 0)
    ∧ ((dlookup (api_kwargs_pre c) "stop_sequences").isSome = true
        ↔ ∃ l, c.stop_sequences = some l ∧ l ≠ [])
    ∧ api_kwargs c = dupdate (api_kwargs_pre c) (c.request_params.getD [])
    ∧ (∀ rp k v, c.request_params = some rp → (rp.map Prod.fst).Nodup →
        dlookup rp k = some v → dlookup (api_kwargs c) k = some v) := by
  refine ⟨?_, ?_, ?_, ?_, ?_, ?_, api_kwargs_eq c, ?_⟩
  · rw [api_kwargs_eq]
    exact isSome_dlookup_dupdate _ _ _ (by rw [pre_lookup_max_tokens]; rfl)
  · rw [api_kwargs_eq]
    exact isSome_dlookup_dupdate _ _ _ (by rw [pre_lookup_anthropic_version]; rfl)
  · rw [pre_lookup_temperature]
    cases ht : c.temperature with
    | none => simp
    | some t => by_cases h0 : t = 0 <;> simp [h0]
  · rw [pre_lookup_top_p]
    cases hp : c.top_p with
    | none => simp
    | some p => by_cases h0 : p = 0 <;> simp [h0]
  · rw [pre_lookup_top_k]
    cases hk : c.top_k with
    | none => simp
    | some k => by_cases h0 : k = 0 <;> simp [h0]
  · rw [pre_lookup_stop_sequences]
    cases hs : c.stop_sequences with
    | none => simp
    | some l => by_cases h0 : l = [] <;> simp [h0]
  · intro rp k v hrp hnd hv
    rw [api_kwargs_eq, hrp]
    simp only [Option.getD_some]
    rw [dlookup_dupdate_nodup rp _ _ hnd, hv]
    simp [ofirst]

/-- Claim C6 witness: request_params override the computed temperature. -/
theorem c6_witness :
    dlookup (api_kwargs claudeRP) "temperature" = some (JValue.str "hot") :=
  (c6_api_kwargs_derivation claudeRP).2.2.2.2.2.2.2
    [("temperature", JValue.str "hot"), ("extra", JValue.num 1)]
    "temperature" (JValue.str "hot") rfl (by decide) rfl

end AwsClaude
